import Mathlib

/-!
A shallow embedding, in Lean 4, of the auth core of the `cms-bb2-node-sdk`
repository (files `src/auth.ts` and `src/entities/AuthorizationToken.ts`),
together with theorems settling the specification claims about it.

Modelling conventions:
* TypeScript `string | undefined` parameters become `Option String`;
  JavaScript string truthiness (`!s` is true for `undefined` and `""`)
  is modelled by `strFalsy`.
* TypeScript `number` fields carrying epoch instants / seconds become `Int`;
  JavaScript number truthiness (`0` is falsy) is modelled by `numTruthy`.
* `throw new Error(...)` becomes `Except Errors` with an inductive error type
  whose constructors are the `Errors` enum members used in `auth.ts`.
* `crypto.randomBytes(32)` is modelled by passing the random bytes as an
  explicit argument (a `List Nat` of byte values).
* `crypto.createHash("sha256")` is given a full executable SHA-256
  implementation over byte lists (32-bit words carried as `Nat` mod `2^32`).
* `moment()` (the construction instant) is an explicit `now : Int` argument,
  in milliseconds since epoch; `moment().add(n)` with a bare number adds `n`
  milliseconds.
* The axios transport is an explicit function argument from requests to
  optional response bodies (`none` = empty/missing body, since an object
  body is truthy and an empty body is falsy in `if (resp.data)`).
  Each protocol function also returns the list of HTTP requests it issued,
  so that "no network call is made" is expressible.
-/

namespace BB2

/-- The SDK facade fields consumed by `auth.ts` (read-only config). -/
structure BlueButton where
  baseUrl : String
  version : String
  clientId : String
  clientSecret : String
  callbackUrl : String
deriving Repr, DecidableEq

/-- Type `AuthData` from `auth.ts`: PKCE verifier, code challenge, and state. -/
structure AuthData where
  codeChallenge : String
  verifier : String
  state : String
deriving Repr, DecidableEq

/-- Type `TokenPostData` from `auth.ts`; `code?: string` becomes `Option String`. -/
structure TokenPostData where
  client_id : String
  client_secret : String
  code : Option String
  grant_type : String
  redirect_uri : String
  code_verifier : String
  code_challenge : String
deriving Repr, DecidableEq

/-- The members of the `Errors` enum referenced by `auth.ts`
(`Errors.CALLBACK_ACCESS_DENIED`, `Errors.CALLBACK_ACCESS_CODE_MISSING`,
`Errors.CALLBACK_STATE_MISSING`, `Errors.CALLBACK_STATE_DOES_NOT_MATCH`,
`Errors.AUTH_TOKEN_URL_RESPONSE_DATA_MISSING`); only the identity of the
thrown error matters to the claims, so an inductive type suffices. -/
inductive Errors where
  | CALLBACK_ACCESS_DENIED
  | CALLBACK_ACCESS_CODE_MISSING
  | CALLBACK_STATE_MISSING
  | CALLBACK_STATE_DOES_NOT_MATCH
  | AUTH_TOKEN_URL_RESPONSE_DATA_MISSING
deriving Repr, DecidableEq

/-- JavaScript string truthiness for `string | undefined`:
`!s` holds exactly when `s` is `undefined` or the empty string. -/
def strFalsy : Option String → Bool
  | none => true
  | some s => s = ""

/-- JavaScript number truthiness for `number | undefined`:
`s ? _ : _` takes the first branch exactly when `s` is present and nonzero. -/
def numTruthy : Option Int → Bool
  | none => false
  | some n => n != 0

/-- Function `validateCallbackRequestQueryParams` from `auth.ts` lines 102-124:
four checks in source order, each `throw` modelled as `Except.error`. -/
def validateCallbackRequestQueryParams (authData : AuthData)
    (callbackCode callbackState callbackError : Option String) :
    Except Errors Unit :=
  if callbackError = some "access_denied" then
    .error .CALLBACK_ACCESS_DENIED
  else if strFalsy callbackCode then
    .error .CALLBACK_ACCESS_CODE_MISSING
  else if strFalsy callbackState then
    .error .CALLBACK_STATE_MISSING
  else if callbackState ≠ some authData.state then
    .error .CALLBACK_STATE_DOES_NOT_MATCH
  else
    .ok ()

/-- Function `getAuthorizationUrl` from `auth.ts`: the template literal
`{baseUrl}/v{version}/o/authorize` as string concatenation. -/
def getAuthorizationUrl (bb : BlueButton) : String :=
  bb.baseUrl ++ "/v" ++ bb.version ++ "/o/authorize"

/-- Function `generateAuthorizeUrl` from `auth.ts` lines 74-83. -/
def generateAuthorizeUrl (bb : BlueButton) (authData : AuthData) : String :=
  let pkceParams :=
    "code_challenge_method=S256&code_challenge=" ++ authData.codeChallenge
  getAuthorizationUrl bb ++ "?client_id=" ++ bb.clientId ++
    "&redirect_uri=" ++ bb.callbackUrl ++ "&state=" ++ authData.state ++
    "&response_type=code&" ++ pkceParams

/-- Function `getAccessTokenUrl` from `auth.ts`: `{baseUrl}/v{version}/o/token/`. -/
def getAccessTokenUrl (bb : BlueButton) : String :=
  bb.baseUrl ++ "/v" ++ bb.version ++ "/o/token/"

/-- Function `generateTokenPostData` from `auth.ts` lines 86-100. -/
def generateTokenPostData (bb : BlueButton) (authData : AuthData)
    (callbackCode : Option String) : TokenPostData :=
  { client_id := bb.clientId
    client_secret := bb.clientSecret
    code := callbackCode
    grant_type := "authorization_code"
    redirect_uri := bb.callbackUrl
    code_verifier := authData.verifier
    code_challenge := authData.codeChallenge }

/-! ### Random primitives: base64url and SHA-256

`Buffer.toString("base64")` is modelled by an executable standard base64
encoder over byte lists, and `crypto.createHash("sha256")` by an executable
SHA-256 over byte lists (FIPS 180-4), with 32-bit words carried as `Nat`
reduced mod `2^32`. -/

/-- The standard base64 alphabet (RFC 4648). -/
def base64Alphabet : List Char :=
  "ABCDEFGHIJKLMNOPQRSTUVWXYZabcdefghijklmnopqrstuvwxyz0123456789+/".toList

/-- The base64 digit for a 6-bit value. -/
def base64Digit (n : Nat) : Char := base64Alphabet.getD (n % 64) 'A'

/-- Standard base64 encoding of a byte list, with `=` padding, as produced
by `Buffer.toString("base64")`. -/
def base64Encode : List Nat → String
  | [] => ""
  | [a] =>
    String.mk [base64Digit (a / 4), base64Digit (a % 4 * 16)] ++ "=="
  | [a, b] =>
    String.mk [base64Digit (a / 4), base64Digit (a % 4 * 16 + b / 16),
      base64Digit (b % 16 * 4)] ++ "="
  | a :: b :: c :: rest =>
    String.mk [base64Digit (a / 4), base64Digit (a % 4 * 16 + b / 16),
      base64Digit (b % 16 * 4 + c / 64), base64Digit (c % 64)] ++
      base64Encode rest

/-- Function `base64URLEncode` from `auth.ts` lines 18-24: base64, then the global
replacements `+`→`-`, `/`→`_`, and `=`→`` (padding stripped). -/
def base64URLEncode (buffer : List Nat) : String :=
  (((base64Encode buffer).replace "+" "-").replace "/" "_").replace "=" ""

/-- Reduction mod `2^32`, the width of SHA-256 words. -/
def w32 (n : Nat) : Nat := n % 4294967296

/-- Right rotation of a 32-bit value. -/
def rotr32 (x n : Nat) : Nat := (x >>> n) ||| w32 (x <<< (32 - n))

/-- SHA-256 `Ch(x,y,z) = (x AND y) XOR ((NOT x) AND z)`. -/
def shaCh (x y z : Nat) : Nat := (x &&& y) ^^^ ((x ^^^ 4294967295) &&& z)

/-- SHA-256 `Maj(x,y,z) = (x AND y) XOR (x AND z) XOR (y AND z)`. -/
def shaMaj (x y z : Nat) : Nat := (x &&& y) ^^^ (x &&& z) ^^^ (y &&& z)

/-- SHA-256 `Σ0`. -/
def bigSigma0 (x : Nat) : Nat := rotr32 x 2 ^^^ rotr32 x 13 ^^^ rotr32 x 22

/-- SHA-256 `Σ1`. -/
def bigSigma1 (x : Nat) : Nat := rotr32 x 6 ^^^ rotr32 x 11 ^^^ rotr32 x 25

/-- SHA-256 `σ0`. -/
def smallSigma0 (x : Nat) : Nat := rotr32 x 7 ^^^ rotr32 x 18 ^^^ (x >>> 3)

/-- SHA-256 `σ1`. -/
def smallSigma1 (x : Nat) : Nat := rotr32 x 17 ^^^ rotr32 x 19 ^^^ (x >>> 10)

/-- The 64 SHA-256 round constants, written in decimal. -/
def shaK : List Nat :=
  [1116352408, 1899447441, 3049323471, 3921009573, 961987163,
   1508970993, 2453635748, 2870763221, 3624381080, 310598401,
   607225278, 1426881987, 1925078388, 2162078206, 2614888103,
   3248222580, 3835390401, 4022224774, 264347078, 604807628,
   770255983, 1249150122, 1555081692, 1996064986, 2554220882,
   2821834349, 2952996808, 3210313671, 3336571891, 3584528711,
   113926993, 338241895, 666307205, 773529912, 1294757372,
   1396182291, 1695183700, 1986661051, 2177026350, 2456956037,
   2730485921, 2820302411, 3259730800, 3345764771, 3516065817,
   3600352804, 4094571909, 275423344, 430227734, 506948616,
   659060556, 883997877, 958139571, 1322822218, 1537002063,
   1747873779, 1955562222, 2024104815, 2227730452, 2361852424,
   2428436474, 2756734187, 3204031479, 3329325298]

/-- The SHA-256 initial hash value, written in decimal. -/
def shaH0 : List Nat :=
  [1779033703, 3144134277, 1013904242, 2773480762,
   1359893119, 2600822924, 528734635, 1541459225]

/-- Big-endian byte expansion of a value into `n` bytes. -/
def beBytes : Nat → Nat → List Nat
  | 0, _ => []
  | n + 1, v => beBytes n (v / 256) ++ [v % 256]

/-- SHA-256 padding: `0x80`, zeros, then the 64-bit big-endian bit length,
to a multiple of 64 bytes. -/
def sha256Pad (msg : List Nat) : List Nat :=
  msg ++ [0x80] ++ List.replicate ((119 - msg.length % 64) % 64) 0 ++
    beBytes 8 (msg.length * 8)

/-- Big-endian 32-bit words from a byte list. -/
def bytesToWords : List Nat → List Nat
  | a :: b :: c :: d :: rest =>
    (((a * 256 + b) * 256 + c) * 256 + d) :: bytesToWords rest
  | _ => []

/-- The 64-entry SHA-256 message schedule of one 64-byte block. -/
def messageSchedule (block : List Nat) : Array Nat :=
  (List.range 48).foldl
    (fun w _ =>
      let t := w.size
      w.push (w32 (smallSigma1 (w.getD (t - 2) 0) + w.getD (t - 7) 0 +
        smallSigma0 (w.getD (t - 15) 0) + w.getD (t - 16) 0)))
    (bytesToWords block).toArray

/-- One round of the SHA-256 compression function on the working variables
`[a, b, c, d, e, f, g, h]`. -/
def compressStep (k w : Nat) : List Nat → List Nat
  | [a, b, c, d, e, f, g, h] =>
    let t1 := w32 (h + bigSigma1 e + shaCh e f g + k + w)
    let t2 := w32 (bigSigma0 a + shaMaj a b c)
    [w32 (t1 + t2), a, b, c, w32 (d + t1), e, f, g]
  | s => s

/-- Process one 64-byte block: 64 compression rounds, then add the previous
hash value, word by word, mod `2^32`. -/
def processBlock (h : List Nat) (block : List Nat) : List Nat :=
  let w := messageSchedule block
  let s := (List.range 64).foldl
    (fun s t => compressStep (shaK.getD t 0) (w.getD t 0) s) h
  List.zipWith (fun x y => w32 (x + y)) h s

/-- Split a byte list into 64-byte chunks, structurally recursive on a
fuel bound (one chunk consumes at least one byte, so the list's length
bounds the number of chunks). -/
def chunksAux : Nat → List Nat → List (List Nat)
  | 0, _ => []
  | _, [] => []
  | fuel + 1, l => l.take 64 :: chunksAux fuel (l.drop 64)

/-- Split a byte list into 64-byte chunks. -/
def chunks64 (l : List Nat) : List (List Nat) := chunksAux l.length l

/-- SHA-256 of a byte list: pad, then fold the compression function over
the 64-byte blocks, then serialize the eight hash words big-endian. -/
def sha256Bytes (msg : List Nat) : List Nat :=
  ((chunks64 (sha256Pad msg)).foldl processBlock shaH0).map (beBytes 4)
    |>.flatten

/-- The UTF-8 encoding of one Unicode code point (RFC 3629). -/
def charUtf8 (c : Char) : List Nat :=
  let n := c.toNat
  if n < 0x80 then [n]
  else if n < 0x800 then
    [0xC0 ||| (n >>> 6), 0x80 ||| (n &&& 0x3F)]
  else if n < 0x10000 then
    [0xE0 ||| (n >>> 12), 0x80 ||| ((n >>> 6) &&& 0x3F),
     0x80 ||| (n &&& 0x3F)]
  else
    [0xF0 ||| (n >>> 18), 0x80 ||| ((n >>> 12) &&& 0x3F),
     0x80 ||| ((n >>> 6) &&& 0x3F), 0x80 ||| (n &&& 0x3F)]

/-- The UTF-8 bytes of a string. -/
def utf8Bytes (s : String) : List Nat := (s.data.map charUtf8).flatten

/-- Function `sha256` from `auth.ts` lines 26-28: SHA-256 of the UTF-8 bytes of a
string (`crypto.createHash("sha256").update(str).digest()`). -/
def sha256 (str : String) : List Nat :=
  sha256Bytes (utf8Bytes str)

set_option maxRecDepth 10000 in
/-- Known-answer test validating the SHA-256 embedding: the FIPS 180-4
sample digest of `"abc"`. -/
theorem sha256_abc_vector :
    sha256 "abc" =
      [0xba, 0x78, 0x16, 0xbf, 0x8f, 0x01, 0xcf, 0xea,
       0x41, 0x41, 0x40, 0xde, 0x5d, 0xae, 0x22, 0x23,
       0xb0, 0x03, 0x61, 0xa3, 0x96, 0x17, 0x7a, 0x9c,
       0xb4, 0x10, 0xff, 0x61, 0xf2, 0x00, 0x15, 0xad] := by decide

/-- Known-answer tests validating the base64 embedding (RFC 4648
examples, including the padded case). -/
theorem base64_vectors :
    base64Encode [77, 97, 110] = "TWFu" ∧ base64Encode [77, 97] = "TWE=" :=
  ⟨rfl, rfl⟩

/-- Type `PkceData` from `auth.ts`. -/
structure PkceData where
  codeChallenge : String
  verifier : String
deriving Repr, DecidableEq

/-- Function `generatePkceData` from `auth.ts` lines 30-36, with the 32 random bytes
of `crypto.randomBytes(32)` passed as an explicit argument. -/
def generatePkceData (randomBytes : List Nat) : PkceData :=
  let verifier := base64URLEncode randomBytes
  { codeChallenge := base64URLEncode (sha256 verifier)
    verifier := verifier }

/-- Function `generateRandomState` from `auth.ts` lines 38-40, with the random bytes
passed explicitly. -/
def generateRandomState (randomBytes : List Nat) : String :=
  base64URLEncode randomBytes

/-- Function `generateAuthData` from `auth.ts` lines 61-68, with the two independent
draws of `crypto.randomBytes(32)` passed explicitly. -/
def generateAuthData (pkceRandomBytes stateRandomBytes : List Nat) :
    AuthData :=
  let pkceData := generatePkceData pkceRandomBytes
  { codeChallenge := pkceData.codeChallenge
    verifier := pkceData.verifier
    state := generateRandomState stateRandomBytes }

/-- Type `AuthorizationTokenData` from `AuthorizationToken.ts`:
the server token-response body; `expires_at?: number` becomes `Option Int`. -/
structure AuthorizationTokenData where
  access_token : String
  expires_in : Int
  token_type : String
  scope : List String
  refresh_token : String
  patient : String
  expires_at : Option Int
deriving Repr, DecidableEq

/-- The `AuthorizationToken` class fields from `AuthorizationToken.ts`. -/
structure AuthorizationToken where
  accessToken : String
  expiresIn : Int
  expiresAt : Int
  tokenType : String
  scope : List String
  refreshToken : String
  patient : String
deriving Repr, DecidableEq

/-- The `AuthorizationToken` constructor from `AuthorizationToken.ts`
lines 23-35.  `now` is the construction instant `moment()` in milliseconds
since epoch; `moment().add(this.expiresIn * 1000).valueOf()` is
`now + expires_in * 1000`.  The guard `authToken.expires_at ? ... : ...`
is JavaScript number truthiness: the supplied value is used only when it is
present and nonzero. -/
def AuthorizationToken.construct (now : Int)
    (authToken : AuthorizationTokenData) : AuthorizationToken :=
  { accessToken := authToken.access_token
    expiresIn := authToken.expires_in
    expiresAt :=
      if numTruthy authToken.expires_at then
        authToken.expires_at.getD 0
      else
        now + authToken.expires_in * 1000
    patient := authToken.patient
    refreshToken := authToken.refresh_token
    scope := authToken.scope
    tokenType := authToken.token_type }

/-! ### The network protocols

An `HttpRequest` records what the core hands to axios on its single POST:
target URL, the form-encoded body pairs, the optional HTTP Basic auth
credentials, and the query parameters.  The transport collaborator is an
explicit function from requests to optional response bodies.  Each protocol
function returns its result together with the list of requests it issued. -/

/-- One outbound HTTP POST as constructed by `auth.ts`. -/
structure HttpRequest where
  url : String
  body : List (String × String)
  auth : Option (String × String)
  params : List (String × String)
deriving Repr, DecidableEq

/-- Model of `new URLSearchParams(postData)`: the record's own keys in declaration
order, each value converted to a string (JavaScript converts an `undefined`
value to the literal string `"undefined"`; in `getAuthorizationToken` the
`code` key is always a validated non-empty string when this runs). -/
def urlSearchParams (d : TokenPostData) : List (String × String) :=
  [("client_id", d.client_id),
   ("client_secret", d.client_secret),
   ("code", d.code.getD "undefined"),
   ("grant_type", d.grant_type),
   ("redirect_uri", d.redirect_uri),
   ("code_verifier", d.code_verifier),
   ("code_challenge", d.code_challenge)]

/-- The transport collaborator: axios, returning `resp.data`.
`none` models an empty/missing response body (falsy `resp.data`);
transport-level throws are outside the claims and not modelled. -/
def Transport : Type := HttpRequest → Option AuthorizationTokenData

/-- The single request issued by `getAuthorizationToken` once validation
passes: POST the form-encoded token post data to the access-token URL
(plain axios call — no Basic auth, no query parameters). -/
def exchangeRequest (bb : BlueButton) (authData : AuthData)
    (callbackCode : Option String) : HttpRequest :=
  { url := getAccessTokenUrl bb
    body := urlSearchParams (generateTokenPostData bb authData callbackCode)
    auth := none
    params := [] }

/-- Function `getAuthorizationToken` from `auth.ts` lines 131-158: validate the
callback parameters, build the token post data, POST it form-encoded to the
access-token URL, then wrap `resp.data` into an `AuthorizationToken` or
throw `AUTH_TOKEN_URL_RESPONSE_DATA_MISSING` when the body is falsy.
Returns the result together with the list of requests issued. -/
def getAuthorizationToken (bb : BlueButton) (authData : AuthData)
    (callbackRequestCode callbackRequestState callbackRequestError :
      Option String)
    (transport : Transport) (now : Int) :
    Except Errors AuthorizationToken × List HttpRequest :=
  match validateCallbackRequestQueryParams authData
      callbackRequestCode callbackRequestState callbackRequestError with
  | .error e => (.error e, [])
  | .ok _ =>
    let req := exchangeRequest bb authData callbackRequestCode
    match transport req with
    | some data => (.ok (AuthorizationToken.construct now data), [req])
    | none => (.error .AUTH_TOKEN_URL_RESPONSE_DATA_MISSING, [req])

/-- The single request issued by `refreshAuthToken`: POST with empty body
to the access-token URL, HTTP Basic auth from the config, and the three
query parameters of `auth.ts` lines 194-198. -/
def refreshRequest (authToken : AuthorizationToken) (bb : BlueButton) :
    HttpRequest :=
  { url := getAccessTokenUrl bb
    body := []
    auth := some (bb.clientId, bb.clientSecret)
    params :=
      [("grant_type", "refresh_token"),
       ("client_id", bb.clientId),
       ("refresh_token", authToken.refreshToken)] }

/-- The record a falsy `resp.data` presents to the `AuthorizationToken`
constructor on the refresh path, where no empty-body check exists: every
field access yields `undefined`, modelled by defaults (`expires_at` absent,
numeric fields zero, strings empty). -/
def emptyTokenData : AuthorizationTokenData :=
  { access_token := ""
    expires_in := 0
    token_type := ""
    scope := []
    refresh_token := ""
    patient := ""
    expires_at := none }

/-- Function `refreshAuthToken` from `auth.ts` lines 167-203: one POST (empty body,
Basic auth, query params), then `new AuthorizationToken(resp.data)`
unconditionally — no empty-body check, no throw of any `Errors` member.
Returns the result together with the list of requests issued; the result
type matches `getAuthorizationToken` so the two paths are comparable. -/
def refreshAuthToken (authToken : AuthorizationToken) (bb : BlueButton)
    (transport : Transport) (now : Int) :
    Except Errors AuthorizationToken × List HttpRequest :=
  let req := refreshRequest authToken bb
  (.ok (AuthorizationToken.construct now ((transport req).getD emptyTokenData)),
   [req])

/-! ### Shared concrete values for witnesses -/

/-- A concrete config, as in the spec's URL-construction example. -/
def bbEx : BlueButton :=
  { baseUrl := "https://sandbox.example.gov", version := "2",
    clientId := "foo", clientSecret := "bar",
    callbackUrl := "https://cb.example/" }

/-- A concrete `AuthData` with state `"S1"`. -/
def adEx : AuthData :=
  { codeChallenge := "C1", verifier := "V1", state := "S1" }

/-- A concrete token-response body, as in the spec's exchange example. -/
def tokEx : AuthorizationTokenData :=
  { access_token := "a", expires_in := 60, token_type := "Bearer",
    scope := ["profile"], refresh_token := "r", patient := "p1",
    expires_at := none }

/-! ### Claim theorems -/

/-- C1: `validateCallbackRequestQueryParams` checks its inputs in this
exact order, first match winning: `error = "access_denied"` fails with
`CALLBACK_ACCESS_DENIED`; else an absent/empty code fails with
`CALLBACK_ACCESS_CODE_MISSING`; else an absent/empty state fails with
`CALLBACK_STATE_MISSING`; else a state different from `authData.state`
fails with `CALLBACK_STATE_DOES_NOT_MATCH`; otherwise it succeeds.  In
particular, with `error = "access_denied"` and both code and state absent
it fails with `CALLBACK_ACCESS_DENIED`. -/
theorem validateCallback_order (authData : AuthData)
    (code state error : Option String) :
    (validateCallbackRequestQueryParams authData code state error =
        .error .CALLBACK_ACCESS_DENIED ↔ error = some "access_denied") ∧
    (validateCallbackRequestQueryParams authData code state error =
        .error .CALLBACK_ACCESS_CODE_MISSING ↔
      error ≠ some "access_denied" ∧ strFalsy code) ∧
    (validateCallbackRequestQueryParams authData code state error =
        .error .CALLBACK_STATE_MISSING ↔
      error ≠ some "access_denied" ∧ ¬ strFalsy code ∧ strFalsy state) ∧
    (validateCallbackRequestQueryParams authData code state error =
        .error .CALLBACK_STATE_DOES_NOT_MATCH ↔
      error ≠ some "access_denied" ∧ ¬ strFalsy code ∧ ¬ strFalsy state ∧
        state ≠ some authData.state) ∧
    (validateCallbackRequestQueryParams authData code state error =
        .ok () ↔
      error ≠ some "access_denied" ∧ ¬ strFalsy code ∧ ¬ strFalsy state ∧
        state = some authData.state) ∧
    validateCallbackRequestQueryParams authData none none
      (some "access_denied") = .error .CALLBACK_ACCESS_DENIED := by
  refine ⟨?_, ?_, ?_, ?_, ?_, rfl⟩ <;>
    (unfold validateCallbackRequestQueryParams; split_ifs <;> simp_all)

/-- C2: for every `PkceData` produced by `generatePkceData` and every
`AuthData` produced by `generateAuthData` (random bytes explicit), the code
challenge equals `base64URLEncode (sha256 verifier)`, where
`base64URLEncode` is standard base64 with `+`→`-`, `/`→`_` and all `=`
stripped; the challenge is thus a deterministic function of the verifier. -/
theorem pkce_codeChallenge_eq (randomBytes pkceRandom stateRandom :
    List Nat) :
    (generatePkceData randomBytes).codeChallenge =
      base64URLEncode (sha256 (generatePkceData randomBytes).verifier) ∧
    (generateAuthData pkceRandom stateRandom).codeChallenge =
      base64URLEncode
        (sha256 (generateAuthData pkceRandom stateRandom).verifier) ∧
    ∀ buffer : List Nat,
      base64URLEncode buffer =
        (((base64Encode buffer).replace "+" "-").replace "/" "_").replace
          "=" "" :=
  ⟨rfl, rfl, fun _ => rfl⟩

/-- The two literal query fragments of the authorize URL concatenate. -/
theorem respType_pkce_merge (x : String) :
    "&response_type=code&" ++
        ("code_challenge_method=S256&code_challenge=" ++ x) =
      "&response_type=code&code_challenge_method=S256&code_challenge=" ++
        x := by
  rw [← String.append_assoc]
  congr 1

/-- C3: `generateAuthorizeUrl` on the spec's example config and `AuthData`
yields exactly the expected URL, and in general it is the literal template
`{baseUrl}/v{version}/o/authorize?client_id={id}&redirect_uri={callbackUrl}&state={state}&response_type=code&code_challenge_method=S256&code_challenge={challenge}`
by plain string interpolation. -/
theorem generateAuthorizeUrl_eq (bb : BlueButton) (ad : AuthData) :
    generateAuthorizeUrl bbEx adEx =
      "https://sandbox.example.gov/v2/o/authorize?client_id=foo&redirect_uri=https://cb.example/&state=S1&response_type=code&code_challenge_method=S256&code_challenge=C1" ∧
    generateAuthorizeUrl bb ad =
      bb.baseUrl ++ "/v" ++ bb.version ++ "/o/authorize?client_id=" ++
        bb.clientId ++ "&redirect_uri=" ++ bb.callbackUrl ++ "&state=" ++
        ad.state ++
        "&response_type=code&code_challenge_method=S256&code_challenge=" ++
        ad.codeChallenge := by
  constructor
  · rfl
  · simp [generateAuthorizeUrl, getAuthorizationUrl, String.append_assoc,
      respType_pkce_merge]

/-- C4 counterexample: a response that supplies `expires_at = 0` (with
`expires_in = 3600`, constructed at instant `5`) does NOT get its supplied
value copied — the constructor computes `5 + 3600 * 1000 = 3600005 ≠ 0`
instead, because the presence test is a truthiness check. -/
theorem construct_expiresAt_zero_not_copied :
    (AuthorizationToken.construct 5
        { access_token := "a", expires_in := 3600, token_type := "Bearer",
          scope := ["profile"], refresh_token := "r", patient := "p1",
          expires_at := some 0 }).expiresAt = 3600005 ∧
      (3600005 : Int) ≠ 0 := by
  constructor
  · rfl
  · decide

/-- C4 (amended): the constructed token's `expiresAt` is always populated:
it equals the server-supplied `expires_at` exactly when that field is
present AND nonzero; otherwise (absent or zero) it equals the construction
instant plus `expires_in` seconds, in milliseconds since epoch. -/
theorem construct_expiresAt_eq (now : Int) (d : AuthorizationTokenData) :
    (AuthorizationToken.construct now d).expiresAt =
      match d.expires_at with
      | some e => if e ≠ 0 then e else now + d.expires_in * 1000
      | none => now + d.expires_in * 1000 := by
  rcases h : d.expires_at with _ | e
  · simp [AuthorizationToken.construct, numTruthy, h]
  · by_cases he : e = 0 <;>
      simp [AuthorizationToken.construct, numTruthy, h, he]

/-- C10: when the response's `expires_at` field is present but equal to
`0`, the constructor discards the supplied value and computes `expiresAt`
as the construction instant plus `expires_in` seconds (truthiness treats
`0` as absent); the supplied value is copied only when nonzero. -/
theorem construct_expiresAt_zero_treated_absent (now : Int)
    (d : AuthorizationTokenData) (h : d.expires_at = some 0) :
    (AuthorizationToken.construct now d).expiresAt =
      now + d.expires_in * 1000 := by
  simp [AuthorizationToken.construct, numTruthy, h]

/-- C10 witness: the claim theorem applied at a concrete response with
`expires_at = 0`. -/
theorem construct_expiresAt_zero_treated_absent_witness :
    ({ access_token := "a", expires_in := 3600, token_type := "Bearer",
       scope := ["profile"], refresh_token := "r", patient := "p1",
       expires_at := some 0 } : AuthorizationTokenData).expires_at =
        some 0 ∧
      (AuthorizationToken.construct 7
        { access_token := "a", expires_in := 3600, token_type := "Bearer",
          scope := ["profile"], refresh_token := "r", patient := "p1",
          expires_at := some 0 }).expiresAt = 7 + 3600 * 1000 :=
  ⟨rfl, construct_expiresAt_zero_treated_absent 7 _ rfl⟩

/-- C5: in `getAuthorizationToken`, once callback validation passes, the
outcome is exactly determined by the transport's response to the single
token POST: a body yields `ok` of the `AuthorizationToken` constructed
from it, and an empty/missing body yields the error
`AUTH_TOKEN_URL_RESPONSE_DATA_MISSING` — the error is raised iff the
response has no body. -/
theorem getAuthorizationToken_body_outcome (bb : BlueButton)
    (authData : AuthData) (code state error : Option String)
    (transport : Transport) (now : Int)
    (hv : validateCallbackRequestQueryParams authData code state error =
      .ok ()) :
    (getAuthorizationToken bb authData code state error transport now).fst =
      match transport (exchangeRequest bb authData code) with
      | some d => .ok (AuthorizationToken.construct now d)
      | none => .error .AUTH_TOKEN_URL_RESPONSE_DATA_MISSING := by
  rcases ht : transport (exchangeRequest bb authData code) with _ | d <;>
    simp [getAuthorizationToken, hv, ht]

/-- C5 witness: the claim theorem applied at a concrete valid callback and
a transport stub returning a concrete body. -/
theorem getAuthorizationToken_body_outcome_witness :
    validateCallbackRequestQueryParams adEx (some "abc") (some "S1")
        none = .ok () ∧
      (getAuthorizationToken bbEx adEx (some "abc") (some "S1") none
          (fun _ => some tokEx) 7).fst =
        match (fun (_ : HttpRequest) => some tokEx)
            (exchangeRequest bbEx adEx (some "abc")) with
        | some d => .ok (AuthorizationToken.construct 7 d)
        | none => .error .AUTH_TOKEN_URL_RESPONSE_DATA_MISSING :=
  ⟨rfl, getAuthorizationToken_body_outcome bbEx adEx (some "abc")
    (some "S1") none (fun _ => some tokEx) 7 rfl⟩

/-- C6: `getAuthorizationToken` validates the callback before any network
call: whenever `validateCallbackRequestQueryParams` fails with some error,
`getAuthorizationToken` returns exactly that error and its request log is
empty — no HTTP request is constructed or sent. -/
theorem getAuthorizationToken_validates_first (bb : BlueButton)
    (authData : AuthData) (code state error : Option String)
    (transport : Transport) (now : Int) (e : Errors)
    (hv : validateCallbackRequestQueryParams authData code state error =
      .error e) :
    getAuthorizationToken bb authData code state error transport now =
      (.error e, []) := by
  unfold getAuthorizationToken
  rw [hv]

/-- C6 witness: the claim theorem applied at a concrete failing callback
(`error = "access_denied"`). -/
theorem getAuthorizationToken_validates_first_witness :
    validateCallbackRequestQueryParams adEx none none
        (some "access_denied") = .error .CALLBACK_ACCESS_DENIED ∧
      getAuthorizationToken bbEx adEx none none (some "access_denied")
          (fun _ => some tokEx) 7 =
        (.error .CALLBACK_ACCESS_DENIED, []) :=
  ⟨rfl, getAuthorizationToken_validates_first bbEx adEx none none
    (some "access_denied") (fun _ => some tokEx) 7
    .CALLBACK_ACCESS_DENIED rfl⟩

/-- C7: `generateTokenPostData` returns the record with exactly the seven
`TokenPostData` fields, with `grant_type = "authorization_code"`,
`client_id`/`client_secret`/`redirect_uri` from the config,
`code_verifier = authData.verifier`,
`code_challenge = authData.codeChallenge`, and `code` equal to the callback
code argument — in particular `code` is `none` (omitted) when that
argument is absent. -/
theorem generateTokenPostData_eq (bb : BlueButton) (authData : AuthData)
    (callbackCode : Option String) :
    generateTokenPostData bb authData callbackCode =
      { client_id := bb.clientId, client_secret := bb.clientSecret,
        code := callbackCode, grant_type := "authorization_code",
        redirect_uri := bb.callbackUrl,
        code_verifier := authData.verifier,
        code_challenge := authData.codeChallenge } ∧
      (generateTokenPostData bb authData none).code = none :=
  ⟨rfl, rfl⟩

/-- C8: `refreshAuthToken` issues exactly one request: a POST with empty
body to `getAccessTokenUrl` — which is the literal endpoint
`{baseUrl}/v{version}/o/token/`, the same URL every exchange request
targets — with HTTP Basic auth `(clientId, clientSecret)` and exactly the
query parameters `grant_type=refresh_token`, `client_id = config.clientId`
and `refresh_token = existingToken.refreshToken`. -/
theorem refreshAuthToken_request (authToken : AuthorizationToken)
    (bb : BlueButton) (transport : Transport) (now : Int) :
    (refreshAuthToken authToken bb transport now).snd =
      [{ url := getAccessTokenUrl bb, body := [],
         auth := some (bb.clientId, bb.clientSecret),
         params := [("grant_type", "refresh_token"),
                    ("client_id", bb.clientId),
                    ("refresh_token", authToken.refreshToken)] }] ∧
      getAccessTokenUrl bb = bb.baseUrl ++ "/v" ++ bb.version ++
        "/o/token/" ∧
      ∀ (authData : AuthData) (code state error : Option String)
        (tr : Transport) (n : Int),
        ((getAuthorizationToken bb authData code state error tr n).snd.map
            HttpRequest.url).all (· == getAccessTokenUrl bb) = true := by
  refine ⟨rfl, rfl, fun authData code state error tr n => ?_⟩
  rcases hval : validateCallbackRequestQueryParams authData code state
      error with e | u
  · simp [getAuthorizationToken, hval]
  · rcases ht : tr (exchangeRequest bb authData code) with _ | d <;>
      (simp only [getAuthorizationToken, hval, ht]; simp [exchangeRequest])

/-- C9: `refreshAuthToken` always returns `ok` of a brand-new
`AuthorizationToken` constructed from whatever response body the transport
yields (the input token is untouched — the result is built only from the
response data); there is no empty-body check on this path, so the result
is `ok` even when the body is missing and the operation never fails with
`AUTH_TOKEN_URL_RESPONSE_DATA_MISSING` (or any other error). -/
theorem refreshAuthToken_no_body_check (authToken : AuthorizationToken)
    (bb : BlueButton) (transport : Transport) (now : Int) :
    (refreshAuthToken authToken bb transport now).fst =
      .ok (AuthorizationToken.construct now
        ((transport (refreshRequest authToken bb)).getD emptyTokenData)) ∧
      ((refreshAuthToken authToken bb transport now).fst.isOk = true) :=
  ⟨rfl, rfl⟩

end BB2
